import Mathlib

/-!
Verification of the EthosLens governance pipeline.

Shallow embedding of the governance decision pipeline of the
EthosLens-Supabase repository: the local violation detector and status
resolution of `server.js` (`EthosLensGovernance`), the status resolvers of
`src/services/governanceService.ts` and `src/services/governanceService.js`,
the Supabase-flavoured variant (`governanceServiceSupabase.ts`), the backend
availability probes (`inkeepAgentsService`, TS and JS variants), and the
feedback path.  Severities and confidences are JavaScript numbers holding
decimals with at most two fractional digits (9.5, 0.95, thresholds 8, 6, 5);
we model a severity as a natural number of tenths (9.5 ↦ 95) and a
confidence as a natural number of hundredths (0.95 ↦ 95), which embeds
every constant and comparison of the source exactly.  Strings are modelled
as Lean strings; JavaScript `toLowerCase` is modelled on the ASCII range,
which covers every pattern and severity constant appearing in the source.
-/

namespace EthosLens

/-- One character of lowercasing, ASCII range (JS `toLowerCase` on the
inputs the detector patterns can interact with). -/
def lowerChar (c : Char) : Char :=
  if 65 ≤ c.toNat && c.toNat ≤ 90 then Char.ofNat (c.toNat + 32) else c

/-- Decide whether `p` is a prefix of the second list (character-exact). -/
def isPrefixCh : List Char → List Char → Bool
  | [], _ => true
  | _ :: _, [] => false
  | p :: ps, c :: cs => p == c && isPrefixCh ps cs

/-- JavaScript `text.includes(pat)`: `pat` occurs as a contiguous substring. -/
def containsSub (pat : List Char) : List Char → Bool
  | [] => isPrefixCh pat []
  | c :: rest => isPrefixCh pat (c :: rest) || containsSub pat rest

/-- ASCII digit test (regex `\d`). -/
def isDigitCh (c : Char) : Bool := 48 ≤ c.toNat && c.toNat ≤ 57

/-- JS regex word character (`\w`): letters, digits, underscore. -/
def isWordCh (c : Char) : Bool :=
  isDigitCh c || (65 ≤ c.toNat && c.toNat ≤ 90) ||
    (97 ≤ c.toNat && c.toNat ≤ 122) || c == '_'

/-- Word-character test on an optional neighbour (`none` = string edge,
which counts as a non-word position for `\b`). -/
def isWordOpt : Option Char → Bool
  | none => false
  | some c => isWordCh c

/-- JS regex `\b`: holds between two positions iff exactly one side is a
word character. -/
def wordBoundary (a b : Option Char) : Bool := isWordOpt a != isWordOpt b

/-- Consume exactly `n` digits from the front; return the remainder. -/
def digitsPrefix : Nat → List Char → Option (List Char)
  | 0, s => some s
  | _ + 1, [] => none
  | n + 1, c :: s => if isDigitCh c then digitsPrefix n s else none

/-- Match of `\b\d{16}\b` (credit-card pattern of `server.js`) anchored at
the current position; `prev` is the character just before it.  Both `\b`
assertions sit next to a digit (a word character), so each reduces to the
other side being non-word. -/
def creditHere (prev : Option Char) (s : List Char) : Bool :=
  match digitsPrefix 16 s with
  | none => false
  | some rest => !(isWordOpt prev) && !(isWordOpt rest.head?)

/-- Match of `\b\d{3}-\d{2}-\d{4}\b` (SSN pattern of `server.js`) anchored
at the current position. -/
def ssnHere (prev : Option Char) (s : List Char) : Bool :=
  match digitsPrefix 3 s with
  | some ('-' :: r1) =>
    (match digitsPrefix 2 r1 with
     | some ('-' :: r2) =>
       (match digitsPrefix 4 r2 with
        | some r3 => !(isWordOpt prev) && !(isWordOpt r3.head?)
        | none => false)
     | _ => false)
  | _ => false

/-- Run an anchored matcher at every position of the text (regex search:
the pattern may match anywhere). -/
def scanFrom (test : Option Char → List Char → Bool) :
    Option Char → List Char → Bool
  | prev, [] => test prev []
  | prev, c :: rest => test prev (c :: rest) || scanFrom test (some c) rest

/-- Search for the SSN regex anywhere in the text. -/
def ssnMatch (t : List Char) : Bool := scanFrom ssnHere none t

/-- Search for the 16-digit credit-card regex anywhere in the text. -/
def creditMatch (t : List Char) : Bool := scanFrom creditHere none t

/-- Character class `[A-Za-z0-9._%+-]` (email local part). -/
def localCh (c : Char) : Bool :=
  isWordCh c || c == '.' || c == '%' || c == '+' || c == '-'

/-- Character class `[A-Za-z0-9.-]` (email domain part). -/
def domainCh (c : Char) : Bool :=
  isDigitCh c || (65 ≤ c.toNat && c.toNat ≤ 90) ||
    (97 ≤ c.toNat && c.toNat ≤ 122) || c == '.' || c == '-'

/-- Character class `[A-Z|a-z]` (email TLD part; the source's class
literally contains the bar character). -/
def tldCh (c : Char) : Bool :=
  (65 ≤ c.toNat && c.toNat ≤ 90) || (97 ≤ c.toNat && c.toNat ≤ 122) || c == '|'

/-- All ways of splitting a list into a prefix and a suffix. -/
def splits : List Char → List (List Char × List Char)
  | [] => [([], [])]
  | c :: rest => ([], c :: rest) :: (splits rest).map (fun p => (c :: p.1, p.2))

/-- Match of the email regex
`\b[A-Za-z0-9._%+-]+@[A-Za-z0-9.-]+\.[A-Z|a-z]{2,}\b` anchored at the
current position, by exhaustive decomposition (regex backtracking finds a
match iff some decomposition satisfies the pieces). -/
def emailHere (prev : Option Char) (s : List Char) : Bool :=
  (splits s).any fun lp =>
    !lp.1.isEmpty && lp.1.all localCh && wordBoundary prev s.head? &&
      (match lp.2 with
       | '@' :: r2 =>
         (splits r2).any fun dp =>
           !dp.1.isEmpty && dp.1.all domainCh &&
             (match dp.2 with
              | '.' :: r4 =>
                (splits r4).any fun tp =>
                  decide (2 ≤ tp.1.length) && tp.1.all tldCh &&
                    wordBoundary tp.1.getLast? tp.2.head?
              | _ => false)
       | _ => false)

/-- Search for the email regex anywhere in the text. -/
def emailMatch (t : List Char) : Bool := scanFrom emailHere none t

/-- PII branch condition of `server.js` `detectViolations`: SSN, 16-digit
number, or email address. -/
def piiMatch (t : List Char) : Bool := ssnMatch t || creditMatch t || emailMatch t

/-- Violation record, as built by `server.js` `detectViolations` (shape of
§3 of the repository's data model). -/
structure Violation where
  vtype : String
  description : String
  reason : String
  /-- Severity in tenths: the source's `9.5` is `95` here. -/
  severity : Nat
  /-- Confidence in hundredths: the source's `0.95` is `95` here. -/
  confidence : Nat
  regulatoryFramework : String
deriving DecidableEq, Repr

/-- Hacking / illegal-activity trigger substrings of `server.js`. -/
def hackingPatterns : List String :=
  ["hack into", "hack someone", "break into", "unauthorized access",
   "crack password", "bypass security", "exploit vulnerability",
   "ddos attack", "sql injection", "phishing", "malware",
   "how to hack", "hacking tutorial", "illegal access",
   "steal data", "breach security", "network intrusion"]

/-- Data-theft / confidential-information trigger substrings of `server.js`. -/
def dataTheftPatterns : List String :=
  ["share the internal", "internal database", "salary database",
   "confidential data", "proprietary information", "company secrets",
   "employee records", "customer database", "financial records",
   "trade secrets", "classified information", "private documents",
   "leak the data", "access internal", "company database",
   "sensitive information", "restricted data", "internal files"]

/-- Harmful / dangerous-content trigger substrings of `server.js`. -/
def harmfulPatterns : List String :=
  ["how to make bomb", "create explosive", "make poison",
   "suicide methods", "self harm", "hurt someone",
   "kill someone", "murder", "violence against",
   "how to kill", "kill my", "kill him", "kill her",
   "murder my", "murder him", "murder her",
   "harm my", "hurt my", "attack my",
   "assassinate", "eliminate someone"]

/-- Bias trigger substrings of `server.js` (inline `includes` checks). -/
def biasPatterns : List String :=
  ["all women", "all men", "people of color are", "white people are"]

/-- Misinformation trigger substrings of `server.js`. -/
def misinfoPatterns : List String :=
  ["vaccines cause autism", "covid is fake", "climate change is a hoax"]

/-- The fixed violation pushed by the hacking scanner. -/
def hackingViolation : Violation :=
  ⟨"illegal_activity", "Illegal hacking or cybersecurity violation detected",
   "Content requests assistance with unauthorized access, hacking, or other illegal activities",
   95, 95, "Computer Fraud and Abuse Act"⟩

/-- The fixed violation pushed by the data-theft scanner. -/
def dataTheftViolation : Violation :=
  ⟨"data_theft", "Unauthorized access to confidential information detected",
   "Content requests access to proprietary, confidential, or sensitive company data",
   90, 90, "Data Protection Act"⟩

/-- The fixed violation pushed by the PII scanner. -/
def piiViolation : Violation :=
  ⟨"pii", "Personal Identifiable Information detected",
   "Content contains sensitive personal data", 85, 90, "GDPR"⟩

/-- The fixed violation pushed by the harmful-content scanner. -/
def harmfulViolation : Violation :=
  ⟨"harmful_content", "Harmful or dangerous content detected",
   "Content may promote violence, self-harm, or dangerous activities",
   90, 90, "Content Safety Guidelines"⟩

/-- The fixed violation pushed by the bias scanner. -/
def biasViolation : Violation :=
  ⟨"bias", "Potential bias detected",
   "Content may contain discriminatory language", 65, 70, "IEEE Ethics"⟩

/-- The fixed violation pushed by the misinformation scanner. -/
def misinformationViolation : Violation :=
  ⟨"misinformation", "Potential misinformation detected",
   "Content may spread false information", 70, 80, "DSA"⟩

/-- Whether some trigger substring of the list occurs in the text
(`patterns.find(pattern => text.includes(pattern))` succeeding). -/
def matchesAny (pats : List String) (t : List Char) : Bool :=
  pats.any fun p => containsSub p.data t

/-- Violation list assembled from the six scanner outcomes, in the push
order of `server.js` `detectViolations` (hacking, data theft, PII,
harmful, bias, misinformation); each scanner contributes its fixed
violation when its condition fired, else nothing. -/
def mkViolations (hack dataTheft pii harmful bias misinfo : Bool) :
    List Violation :=
  (if hack then [hackingViolation] else []) ++
  (if dataTheft then [dataTheftViolation] else []) ++
  (if pii then [piiViolation] else []) ++
  (if harmful then [harmfulViolation] else []) ++
  (if bias then [biasViolation] else []) ++
  (if misinfo then [misinformationViolation] else [])

/-- The analysed text: `` `${prompt} ${response}`.toLowerCase() ``. -/
def govText (prompt response : String) : List Char :=
  ((prompt ++ " " ++ response).data).map lowerChar

/-- `EthosLensGovernance.detectViolations` of `server.js`. -/
def detectViolations (prompt response : String) : List Violation :=
  let t := govText prompt response
  mkViolations (matchesAny hackingPatterns t) (matchesAny dataTheftPatterns t)
    (piiMatch t) (matchesAny harmfulPatterns t) (matchesAny biasPatterns t)
    (matchesAny misinfoPatterns t)

/-- `Math.max(...violations.map(v => v.severity))`, totalised with 0 for
the empty list (every caller guards on non-emptiness; all severity
constants are positive). -/
def maxSev (vs : List Violation) : Nat := (vs.map Violation.severity).foldr max 0

/-- Status and severity bucket assigned by `server.js`
`processInteraction`: defaults `(approved, low)`, overwritten when
violations exist using thresholds `>= 8` and `>= 6`. -/
def serverResolve (violations : List Violation) : String × String :=
  if 0 < violations.length then
    let m := maxSev violations
    if 80 ≤ m then ("blocked", "critical")
    else if 60 ≤ m then ("pending", "high")
    else ("approved", "medium")
  else ("approved", "low")

/-- Agent-action record in the `server.js` shape (`agent`/`action`/`result`). -/
structure ServerAgentAction where
  agent : String
  action : String
  result : String
deriving DecidableEq, Repr

/-- Interaction record returned by `server.js` `processInteraction`
(timestamps and the random id are outside the embedding). -/
structure ServerInteraction where
  input : String
  output : String
  status : String
  severity : String
  violations : List Violation
  agentActions : List ServerAgentAction
deriving DecidableEq, Repr

/-- `EthosLensGovernance.processInteraction` of `server.js`: detect
violations, resolve status/severity, and log the two agent actions. -/
def serverProcessInteraction (prompt response : String) : ServerInteraction :=
  let violations := detectViolations prompt response
  let sr := serverResolve violations
  { input := prompt, output := response, status := sr.1, severity := sr.2,
    violations := violations,
    agentActions :=
      [⟨"PolicyEnforcerAgent", "analyze",
        "Found " ++ toString violations.length ++ " violations"⟩,
       ⟨"VerifierAgent", "verify", "Status: " ++ sr.1⟩] }

/-- `GovernanceService.determineFinalStatus` of
`src/services/governanceService.ts`: status and severity from the
violation list (thresholds `>= 9` via the critical filter, `>= 7` via the
high filter, then `maxSeverity >= 5`). -/
def tsDetermineFinalStatus (vs : List Violation) : String × String :=
  if vs.length = 0 then ("approved", "low")
  else
    let m := maxSev vs
    let critical := vs.filter fun v => decide (90 ≤ v.severity)
    let high := vs.filter fun v => decide (70 ≤ v.severity)
    if 0 < critical.length then ("blocked", "critical")
    else if 0 < high.length then ("pending", "high")
    else if 50 ≤ m then ("pending", "medium")
    else ("approved", "low")

/-- Status finalisation of `src/services/governanceService.js`
`processInteraction` (thresholds `some >= 9`, `some >= 7`, otherwise
`(pending, medium)` for a non-empty list). -/
def jsFinalize (vs : List Violation) : String × String :=
  if vs.length = 0 then ("approved", "low")
  else if vs.any fun v => decide (90 ≤ v.severity) then
    ("blocked", "critical")
  else if vs.any fun v => decide (70 ≤ v.severity) then
    ("pending", "high")
  else ("pending", "medium")

/-- Modelled from the spec: the canonical Status Resolver of §4.2 of the
specification (empty list approved/low; otherwise thresholds `>= 8`,
`>= 6`, `>= 5` on the maximum severity).  Stated here only to be compared
with the resolvers implemented by the source. -/
def canonicalResolve (vs : List Violation) : String × String :=
  if vs.length = 0 then ("approved", "low")
  else
    let m := maxSev vs
    if 80 ≤ m then ("blocked", "critical")
    else if 60 ≤ m then ("pending", "high")
    else if 50 ≤ m then ("pending", "medium")
    else ("approved", "low")

/-- Agent-action record in the shape of `src/types` (`agentName`, `action`,
`details`; timestamps are outside the embedding). -/
structure AgentAction where
  agentName : String
  action : String
  details : String
deriving DecidableEq, Repr

/-- What a successful remote (Inkeep) analysis call contributes: a
violation list and an agent-action list. -/
structure RemoteResult where
  violations : List Violation
  agentActions : List AgentAction
deriving DecidableEq, Repr

/-- Interaction record of `src/types` (id and timestamp outside the
embedding). -/
structure Interaction where
  input : String
  output : String
  status : String
  severity : String
  violations : List Violation
  agentActions : List AgentAction
deriving DecidableEq, Repr

/-- Modelled from the spec: the legacy agents module (`../agents`,
imported by `governanceService.ts`) is not among the sources here.  Spec
§4.4 step 4 says the local path runs the Violation Detector and appends a
policy-enforcer-style action summarising the violation count and a
verifier-style action summarising the outcome; we take the repository's
local detector (`server.js` `detectViolations`) as the Violation Detector.
The legacy agents are a function of the interaction text alone. -/
def legacyProcess (input output : String) : List Violation × List AgentAction :=
  let vs := detectViolations input output
  (vs,
   [⟨"PolicyEnforcer", "flag",
     "Found " ++ toString vs.length ++ " violations"⟩,
    ⟨"Verifier", "approve", "Verification complete"⟩])

/-- The extra action pushed by `processWithInkeepAgents` on a successful
remote call in `governanceService.ts`. -/
def inkeepLogAction (n : Nat) : AgentAction :=
  ⟨"InkeepIntegration", "log",
   "Processed through Inkeep Advanced Governance with " ++ toString n ++
     " violations detected"⟩

/-- `GovernanceService.processInteraction` of `governanceService.ts`.
`useInkeep` is `shouldUseInkeep()`; `remote` is the outcome of the awaited
`processAdvancedGovernance` call (`Except.error` = it threw).  On a remote
error the catch block falls back to the legacy agents; the final status is
computed by `determineFinalStatus`; the method itself never rejects. -/
def tsProcessInteraction (useInkeep : Bool) (remote : Except String RemoteResult)
    (input output : String) : Except String Interaction :=
  let base : Interaction := ⟨input, output, "pending", "low", [], []⟩
  let worked : Interaction :=
    if useInkeep then
      match remote with
      | .ok r =>
        { base with
            violations := base.violations ++ r.violations,
            agentActions := base.agentActions ++ r.agentActions ++
              [inkeepLogAction r.violations.length] }
      | .error _ =>
        let lr := legacyProcess input output
        { base with
            violations := base.violations ++ lr.1,
            agentActions := base.agentActions ++ lr.2 }
    else
      let lr := legacyProcess input output
      { base with
          violations := base.violations ++ lr.1,
          agentActions := base.agentActions ++ lr.2 }
  let fs := tsDetermineFinalStatus worked.violations
  .ok { worked with status := fs.1, severity := fs.2 }

/-- Agent actions carried by a `tsProcessInteraction` result (empty on a
rejected promise). -/
def actionsOf : Except String Interaction → List AgentAction
  | .ok i => i.agentActions
  | .error _ => []

/-- Whether an interaction carries any agent action with `action: 'log'`. -/
def hasLogAction (i : Interaction) : Bool :=
  i.agentActions.any fun a => a.action == "log"

/-- `GovernanceService.processInteraction` of `governanceService.js`: on
the Inkeep path merge the remote result, on a thrown remote call append
only the `Processing error` log action, on the legacy path append only the
`Legacy fallback used` log action; then finalise the status.  No local
violation detection exists in this variant. -/
def jsProcessInteraction (useInkeepAgents inkeepAvailable : Bool)
    (remote : Except String RemoteResult) (input output : String) : Interaction :=
  let base : Interaction := ⟨input, output, "pending", "low", [], []⟩
  let worked : Interaction :=
    if useInkeepAgents && inkeepAvailable then
      match remote with
      | .ok r =>
        { base with
            violations := base.violations ++ r.violations,
            agentActions := base.agentActions ++ r.agentActions }
      | .error e =>
        { base with
            agentActions := base.agentActions ++
              [⟨"GovernanceService", "log", "Processing error: " ++ e⟩] }
    else
      { base with
          agentActions := base.agentActions ++
            [⟨"Legacy", "log", "Legacy fallback used"⟩] }
  let fs := jsFinalize worked.violations
  { worked with status := fs.1, severity := fs.2 }

/-- JavaScript `response.ok`: HTTP status in the 200..299 range. -/
def respOk (status : Nat) : Bool := 200 ≤ status && status ≤ 299

/-- `InkeepAgentsService.isAvailable` (TS variant): `false` without
probing when the integration is disabled; a thrown/timed-out fetch is
caught to `false`; otherwise the result is `response.ok`.  The method is
`Bool`-valued because its catch block swallows every error. -/
def tsIsAvailable (isEnabled : Bool) (probe : Except String Nat) : Bool :=
  if !isEnabled then false
  else
    match probe with
    | .error _ => false
    | .ok status => respOk status

/-- Candidate loop of the JS variant's `isAvailable`: the first candidate
whose response is `ok` or has status 404 yields `true`; a thrown fetch or
any other status falls through to the next candidate; `false` when all
candidates are exhausted. -/
def jsAvailLoop : List (Except String Nat) → Bool
  | [] => false
  | .error _ :: rest => jsAvailLoop rest
  | .ok status :: rest =>
    if respOk status || status == 404 then true else jsAvailLoop rest

/-- `InkeepAgentsService.isAvailable` (JS variant of the same module):
probes `/health`, `/openapi.json`, `/` in order with the candidate loop. -/
def jsIsAvailable (isEnabled : Bool) (probes : List (Except String Nat)) : Bool :=
  if !isEnabled then false else jsAvailLoop probes

/-- Persisted governance state visible to the feedback path: the stored
interactions keyed by id. -/
structure GovState where
  interactions : List (String × Interaction)
deriving DecidableEq, Repr

/-- Stored interaction for a given id, if any. -/
def lookupInteraction (st : GovState) (iid : String) : Option Interaction :=
  (st.interactions.find? fun p => p.1 == iid).map Prod.snd

/-- `GovernanceService.processFeedback` of `governanceService.ts`:
forwards the feedback to the Inkeep service on the Inkeep path (`remote`
is that call's outcome; `Except.error` = it threw, e.g. on a non-2xx
response) or only logs it on the legacy path; its catch block swallows
every error, and no interaction record is read or written. -/
def tsProcessFeedback (st : GovState) (useInkeep : Bool)
    (remote : Except String Unit) (_interactionId _rating : String)
    (_comment : Option String) : GovState × Except String Unit :=
  if useInkeep then
    match remote with
    | .ok _ => (st, .ok ())
    | .error _ => (st, .ok ())
  else (st, .ok ())

/-- Result record of one legacy agent in the Supabase variant
(`action.type`, bucket-valued `action.severity`, `action.reason`,
`action.policyId`). -/
structure SupAgentResult where
  rtype : String
  severity : String
  reason : String
  policyId : String
deriving DecidableEq, Repr

/-- `getMaxSeverity` of `governanceServiceSupabase.ts`: bucket maximum by
membership tests, order critical > high > medium > low. -/
def supGetMaxSeverity (ss : List String) : String :=
  if ss.contains "critical" then "critical"
  else if ss.contains "high" then "high"
  else if ss.contains "medium" then "medium"
  else "low"

/-- Final status of `processWithLegacyAgents` in
`governanceServiceSupabase.ts`: with violations, `blocked` when the
maximum bucket is `critical` and `flagged` otherwise; `compliant` when no
violations were collected. -/
def supLegacyStatus (violSeverities : List String) : String :=
  if 0 < violSeverities.length then
    if supGetMaxSeverity violSeverities = "critical" then "blocked" else "flagged"
  else "compliant"

/-- Status returned by `GovernanceServiceSupabase.processInteraction`:
`error` when the surrounding try block throws (Supabase bookkeeping), the
remote result's status on a successful Inkeep path (the remote call
`runGovernanceCheck` is external to these sources, so its status is a
parameter), and otherwise the legacy path's status over the
violation-typed agent results. -/
def supProcessStatus (bookkeepingFails : Bool) (useInkeep : Bool)
    (remote : Except String String) (agentResults : List SupAgentResult) : String :=
  if bookkeepingFails then "error"
  else
    let legacyStatus :=
      supLegacyStatus
        (((agentResults.filter fun a => a.rtype == "violation").map
          SupAgentResult.severity))
    if useInkeep then
      match remote with
      | .ok remoteStatus => remoteStatus
      | .error _ => legacyStatus
    else legacyStatus

/-- Rank of a severity bucket in the order low < medium < high < critical. -/
def bucketRank (s : String) : Nat :=
  if s = "low" then 0
  else if s = "medium" then 1
  else if s = "high" then 2
  else 3

/-- Payload of a fulfilled `tsProcessInteraction` promise (a rejected one
yields a dummy record; `tsProcessInteraction` never rejects). -/
def interactionOf : Except String Interaction → Interaction
  | .ok i => i
  | .error _ => ⟨"", "", "", "", [], []⟩

/-! Helper lemmas about the maximum severity and the resolver tables. -/

theorem maxSev_cons (v : Violation) (vs : List Violation) :
    maxSev (v :: vs) = max v.severity (maxSev vs) := rfl

theorem le_maxSev_iff {c : Nat} (hc : 0 < c) (vs : List Violation) :
    c ≤ maxSev vs ↔ ∃ v ∈ vs, c ≤ v.severity := by
  induction vs with
  | nil =>
    simp only [maxSev, List.map_nil, List.foldr_nil, List.not_mem_nil,
      false_and, exists_false, iff_false]
    omega
  | cons v vs ih =>
    simp only [maxSev_cons, le_max_iff, ih, List.mem_cons]
    constructor
    · rintro (h | ⟨w, hw, hcw⟩)
      · exact ⟨v, Or.inl rfl, h⟩
      · exact ⟨w, Or.inr hw, hcw⟩
    · rintro ⟨w, hw | hw, hcw⟩
      · exact Or.inl (hw ▸ hcw)
      · exact Or.inr ⟨w, hw, hcw⟩

theorem maxSev_le_of_mem {v : Violation} {vs : List Violation} (h : v ∈ vs) :
    v.severity ≤ maxSev vs := by
  induction vs with
  | nil => cases h
  | cons w ws ih =>
    rcases List.mem_cons.mp h with h | h
    · rw [h, maxSev_cons]; exact le_max_left _ _
    · rw [maxSev_cons]; exact le_trans (ih h) (le_max_right _ _)

theorem maxSev_cons_of_mem {v : Violation} {vs : List Violation} (h : v ∈ vs) :
    maxSev (v :: vs) = maxSev vs := by
  rw [maxSev_cons]
  exact max_eq_right (maxSev_le_of_mem h)

theorem maxSev_append (vs ws : List Violation) :
    maxSev (vs ++ ws) = max (maxSev vs) (maxSev ws) := by
  induction vs with
  | nil => simp [maxSev]
  | cons v vs ih => simp [maxSev_cons, ih, max_assoc]

theorem filter_pos_iff (p : Violation → Bool) (vs : List Violation) :
    0 < (vs.filter p).length ↔ ∃ v ∈ vs, p v := by
  rw [List.length_pos_iff_exists_mem]
  simp [List.mem_filter]

/-- The TS resolver's decision as a threshold table over the maximum
severity: thresholds 9, 7, 5 (in tenths: 90, 70, 50). -/
theorem tsTable (vs : List Violation) :
    tsDetermineFinalStatus vs =
      if vs.length = 0 then ("approved", "low")
      else if 90 ≤ maxSev vs then ("blocked", "critical")
      else if 70 ≤ maxSev vs then ("pending", "high")
      else if 50 ≤ maxSev vs then ("pending", "medium")
      else ("approved", "low") := by
  have h9 : (0 < (vs.filter fun v => decide (90 ≤ v.severity)).length) ↔
      90 ≤ maxSev vs := by
    rw [filter_pos_iff, le_maxSev_iff (by omega)]
    simp
  have h7 : (0 < (vs.filter fun v => decide (70 ≤ v.severity)).length) ↔
      70 ≤ maxSev vs := by
    rw [filter_pos_iff, le_maxSev_iff (by omega)]
    simp
  unfold tsDetermineFinalStatus
  simp only [h9, h7]

/-- The `server.js` resolver's decision as a threshold table over the
maximum severity: thresholds 8, 6 (in tenths: 80, 60), else
`(approved, medium)` for a non-empty list. -/
theorem serverTable (vs : List Violation) :
    serverResolve vs =
      if vs.length = 0 then ("approved", "low")
      else if 80 ≤ maxSev vs then ("blocked", "critical")
      else if 60 ≤ maxSev vs then ("pending", "high")
      else ("approved", "medium") := by
  unfold serverResolve
  rcases Nat.eq_zero_or_pos vs.length with h | h
  · simp [h]
  · simp [h, Nat.pos_iff_ne_zero.mp h]

/-- The `governanceService.js` resolver's decision as a threshold table
over the maximum severity: thresholds 9, 7 (in tenths: 90, 70), else
`(pending, medium)` for a non-empty list. -/
theorem jsTable (vs : List Violation) :
    jsFinalize vs =
      if vs.length = 0 then ("approved", "low")
      else if 90 ≤ maxSev vs then ("blocked", "critical")
      else if 70 ≤ maxSev vs then ("pending", "high")
      else ("pending", "medium") := by
  have h9 : ((vs.any fun v => decide (90 ≤ v.severity)) = true) ↔
      90 ≤ maxSev vs := by
    rw [List.any_eq_true, le_maxSev_iff (by omega)]
    simp
  have h7 : ((vs.any fun v => decide (70 ≤ v.severity)) = true) ↔
      70 ≤ maxSev vs := by
    rw [List.any_eq_true, le_maxSev_iff (by omega)]
    simp
  unfold jsFinalize
  simp only [h9, h7]

theorem tsStatus_cases (vs : List Violation) :
    (tsDetermineFinalStatus vs).1 = "approved" ∨
      (tsDetermineFinalStatus vs).1 = "pending" ∨
      (tsDetermineFinalStatus vs).1 = "blocked" := by
  rw [tsTable]
  split
  · simp
  · split
    · simp
    · split
      · simp
      · split <;> simp

theorem jsStatus_cases (vs : List Violation) :
    (jsFinalize vs).1 = "approved" ∨ (jsFinalize vs).1 = "pending" ∨
      (jsFinalize vs).1 = "blocked" := by
  rw [jsTable]
  split
  · simp
  · split
    · simp
    · split <;> simp

theorem supLegacyStatus_cases (ss : List String) :
    supLegacyStatus ss = "blocked" ∨ supLegacyStatus ss = "flagged" ∨
      supLegacyStatus ss = "compliant" := by
  unfold supLegacyStatus
  split
  · split <;> simp
  · simp

theorem serverProcess_status (prompt response : String) :
    (serverProcessInteraction prompt response).status =
      (serverResolve (detectViolations prompt response)).1 := rfl

theorem serverProcess_severity (prompt response : String) :
    (serverProcessInteraction prompt response).severity =
      (serverResolve (detectViolations prompt response)).2 := rfl

/-- The three resolvers depend on the violation list only through its
emptiness and its maximum severity. -/
theorem resolvers_max_determined {vs ws : List Violation}
    (hlen : vs.length = 0 ↔ ws.length = 0) (hmax : maxSev vs = maxSev ws) :
    tsDetermineFinalStatus vs = tsDetermineFinalStatus ws ∧
      serverResolve vs = serverResolve ws ∧ jsFinalize vs = jsFinalize ws := by
  by_cases h : ws.length = 0
  · have h' : vs.length = 0 := hlen.mpr h
    refine ⟨?_, ?_, ?_⟩ <;> simp [tsTable, serverTable, jsTable, hmax, h, h']
  · have h' : ¬vs.length = 0 := fun hh => h (hlen.mp hh)
    refine ⟨?_, ?_, ?_⟩ <;> simp [tsTable, serverTable, jsTable, hmax, h, h']

/-- Scanner outcome combinations with the PII flag set: exactly one `pii`
violation, the fixed PII record is present, and `server.js` resolution
blocks (case analysis over the other five scanners). -/
theorem mkViolations_pii (b1 b2 b4 b5 b6 : Bool) :
    ((mkViolations b1 b2 true b4 b5 b6).filter fun v => v.vtype == "pii").length
        = 1 ∧
      piiViolation ∈ mkViolations b1 b2 true b4 b5 b6 ∧
      serverResolve (mkViolations b1 b2 true b4 b5 b6) = ("blocked", "critical") := by
  revert b1 b2 b4 b5 b6
  decide

/-- Category types of the assembled violation list are pairwise distinct
(at most one violation per category), over all scanner outcomes. -/
theorem mkViolations_nodup (b1 b2 b3 b4 b5 b6 : Bool) :
    ((mkViolations b1 b2 b3 b4 b5 b6).map Violation.vtype).Nodup := by
  revert b1 b2 b3 b4 b5 b6
  decide

/-- Every emitted violation carries its category's fixed severity constant
and one of the six category types, over all scanner outcomes. -/
theorem mkViolations_constants (b1 b2 b3 b4 b5 b6 : Bool) :
    ∀ v ∈ mkViolations b1 b2 b3 b4 b5 b6,
      (v.vtype = "illegal_activity" → v.severity = 95) ∧
      (v.vtype = "data_theft" → v.severity = 90) ∧
      (v.vtype = "harmful_content" → v.severity = 90) ∧
      (v.vtype = "pii" → v.severity = 85) ∧
      (v.vtype = "bias" → v.severity = 65) ∧
      (v.vtype = "misinformation" → v.severity = 70) ∧
      v.vtype ∈ (["illegal_activity", "data_theft", "pii", "harmful_content",
        "bias", "misinformation"] : List String) := by
  revert b1 b2 b3 b4 b5 b6
  decide

/-- When no scanner fires the assembled violation list is empty. -/
theorem mkViolations_empty (b1 b2 b3 b4 b5 b6 : Bool) :
    b1 = false → b2 = false → b3 = false → b4 = false → b5 = false →
      b6 = false → mkViolations b1 b2 b3 b4 b5 b6 = [] := by
  revert b1 b2 b3 b4 b5 b6
  decide

/-! Claim theorems. -/

/-- C1 (counterexample): the canonical threshold table of the claim fails
on each resolver the claim cites.  The PII violation has severity 8.5 (85
tenths), so `maxSeverity >= 8`, yet the TS resolver answers
`(pending, high)`, not `(blocked, critical)`; a severity-5.5 violation
makes `server.js` answer `(approved, medium)`, not `(pending, medium)`;
and a severity-3 violation makes `governanceService.js` answer
`(pending, medium)`, not `(approved, low)`. -/
theorem statusResolver_canonical_table_refuted :
    (80 ≤ maxSev [piiViolation] ∧
      tsDetermineFinalStatus [piiViolation] ≠ ("blocked", "critical")) ∧
    (50 ≤ maxSev [Violation.mk "test" "d" "r" 55 50 "f"] ∧
      maxSev [Violation.mk "test" "d" "r" 55 50 "f"] < 60 ∧
      serverResolve [Violation.mk "test" "d" "r" 55 50 "f"] ≠
        ("pending", "medium")) ∧
    (maxSev [Violation.mk "test" "d" "r" 30 50 "f"] < 50 ∧
      jsFinalize [Violation.mk "test" "d" "r" 30 50 "f"] ≠
        ("approved", "low")) := by
  decide

/-- C1 (amended): each resolver is a first-match threshold table over the
maximum severity of a non-empty violation list (empty list: approved/low),
but with variant-specific thresholds and buckets.  `governanceService.ts`:
`>= 9` blocked/critical, `>= 7` pending/high, `>= 5` pending/medium, else
approved/low.  `server.js`: `>= 8` blocked/critical, `>= 6` pending/high,
else approved/medium.  `governanceService.js`: `>= 9` blocked/critical,
`>= 7` pending/high, else pending/medium.  (Severities in tenths.) -/
theorem statusResolver_threshold_tables (vs : List Violation) :
    (tsDetermineFinalStatus vs =
      if vs.length = 0 then ("approved", "low")
      else if 90 ≤ maxSev vs then ("blocked", "critical")
      else if 70 ≤ maxSev vs then ("pending", "high")
      else if 50 ≤ maxSev vs then ("pending", "medium")
      else ("approved", "low")) ∧
    (serverResolve vs =
      if vs.length = 0 then ("approved", "low")
      else if 80 ≤ maxSev vs then ("blocked", "critical")
      else if 60 ≤ maxSev vs then ("pending", "high")
      else ("approved", "medium")) ∧
    (jsFinalize vs =
      if vs.length = 0 then ("approved", "low")
      else if 90 ≤ maxSev vs then ("blocked", "critical")
      else if 70 ≤ maxSev vs then ("pending", "high")
      else ("pending", "medium")) :=
  ⟨tsTable vs, serverTable vs, jsTable vs⟩

/-- C2: whenever the lower-cased concatenation of prompt and response
matches the word-bounded 16-digit regex, the `server.js` pipeline emits
exactly one `pii` violation, that violation carries severity 8.5 (85
tenths), and the resulting interaction is `blocked` (8.5 lies in the
`>= 8` band of `server.js`). -/
theorem pii_sixteen_digit_blocked (prompt response : String)
    (h : creditMatch (govText prompt response) = true) :
    ((detectViolations prompt response).filter fun v => v.vtype == "pii").length
        = 1 ∧
      piiViolation ∈ detectViolations prompt response ∧
      piiViolation.severity = 85 ∧
      (serverProcessInteraction prompt response).status = "blocked" := by
  have hp : piiMatch (govText prompt response) = true := by
    unfold piiMatch
    rw [h]
    simp
  have hd : detectViolations prompt response =
      mkViolations (matchesAny hackingPatterns (govText prompt response))
        (matchesAny dataTheftPatterns (govText prompt response)) true
        (matchesAny harmfulPatterns (govText prompt response))
        (matchesAny biasPatterns (govText prompt response))
        (matchesAny misinfoPatterns (govText prompt response)) := by
    simp only [detectViolations]
    rw [hp]
  have key := mkViolations_pii (matchesAny hackingPatterns (govText prompt response))
    (matchesAny dataTheftPatterns (govText prompt response))
    (matchesAny harmfulPatterns (govText prompt response))
    (matchesAny biasPatterns (govText prompt response))
    (matchesAny misinfoPatterns (govText prompt response))
  refine ⟨?_, ?_, rfl, ?_⟩
  · rw [hd]
    exact key.1
  · rw [hd]
    exact key.2.1
  · rw [serverProcess_status, hd, key.2.2]

/-- C2 witness: a concrete response holding a word-bounded 16-digit number
is blocked. -/
theorem pii_sixteen_digit_blocked_witness :
    creditMatch (govText "my card is" "1234567890123456") = true ∧
      (serverProcessInteraction "my card is" "1234567890123456").status =
        "blocked" :=
  ⟨by decide,
    (pii_sixteen_digit_blocked "my card is" "1234567890123456" (by decide)).2.2.2⟩

/-- C8: the resolvers are insensitive to violation count: duplicating a
violation already in the list, or replacing one trailing copy by five
copies, leaves the decision of all three resolvers unchanged. -/
theorem resolver_count_insensitive (vs : List Violation) (v : Violation) :
    (v ∈ vs →
      tsDetermineFinalStatus (v :: vs) = tsDetermineFinalStatus vs ∧
        serverResolve (v :: vs) = serverResolve vs ∧
        jsFinalize (v :: vs) = jsFinalize vs) ∧
    (tsDetermineFinalStatus (vs ++ [v, v, v, v, v]) =
        tsDetermineFinalStatus (vs ++ [v]) ∧
      serverResolve (vs ++ [v, v, v, v, v]) = serverResolve (vs ++ [v]) ∧
      jsFinalize (vs ++ [v, v, v, v, v]) = jsFinalize (vs ++ [v])) := by
  constructor
  · intro hmem
    have hne : vs ≠ [] := List.ne_nil_of_mem hmem
    have hlen : (v :: vs).length = 0 ↔ vs.length = 0 := by
      simp [List.length_eq_zero, hne]
    exact resolvers_max_determined hlen (maxSev_cons_of_mem hmem)
  · have hlen : (vs ++ [v, v, v, v, v]).length = 0 ↔ (vs ++ [v]).length = 0 := by
      simp
    have hmax : maxSev (vs ++ [v, v, v, v, v]) = maxSev (vs ++ [v]) := by
      rw [maxSev_append, maxSev_append]
      congr 1
      simp [maxSev, maxSev_cons]
    exact resolvers_max_determined hlen hmax

/-- C8 witness: duplicating the PII violation changes nothing. -/
theorem resolver_count_insensitive_witness :
    tsDetermineFinalStatus [piiViolation, piiViolation] =
      tsDetermineFinalStatus [piiViolation] :=
  ((resolver_count_insensitive [piiViolation] piiViolation).1 (by decide)).1

/-- C9: an input with no detector trigger resolves to the `low` bucket in
`server.js`, and appending any further text can only keep or raise the
bucket in the order low < medium < high < critical (the clean bucket is
the bottom of that order). -/
theorem clean_input_bucket_monotone (prompt response : String)
    (h : detectViolations prompt response = []) :
    (serverProcessInteraction prompt response).status = "approved" ∧
      (serverProcessInteraction prompt response).severity = "low" ∧
      ∀ extra : String,
        bucketRank (serverProcessInteraction prompt response).severity ≤
          bucketRank (serverProcessInteraction prompt (response ++ extra)).severity := by
  have hs : (serverProcessInteraction prompt response).status = "approved" := by
    rw [serverProcess_status, h]
    rfl
  have hv : (serverProcessInteraction prompt response).severity = "low" := by
    rw [serverProcess_severity, h]
    rfl
  refine ⟨hs, hv, ?_⟩
  intro extra
  rw [hv]
  simp [bucketRank]

/-- C9 witness: a clean exchange is approved with the `low` bucket. -/
theorem clean_input_bucket_monotone_witness :
    (serverProcessInteraction "What is the weather like today?"
        "It is sunny.").status = "approved" ∧
      (serverProcessInteraction "What is the weather like today?"
        "It is sunny.").severity = "low" :=
  ⟨(clean_input_bucket_monotone _ _ (by decide)).1,
    (clean_input_bucket_monotone "What is the weather like today?"
      "It is sunny." (by decide)).2.1⟩

/-- C3 (counterexample): after a failed remote call, the fallback result
of `governanceService.ts` carries no `log` agent action at all — in
particular none noting the fallback — and is byte-identical to the plain
local-path result, so nothing in the returned interaction records that a
fallback happened. -/
theorem remote_failure_fallback_log_refuted :
    hasLogAction
        (interactionOf (tsProcessInteraction true (.error "timeout") "hi" "ok"))
      = false ∧
    interactionOf (tsProcessInteraction true (.error "timeout") "hi" "ok") =
      interactionOf (tsProcessInteraction false (.ok ⟨[], []⟩) "hi" "ok") := by
  decide

/-- C3 (amended): when the remote path is selected but the remote analysis
call fails, `processInteraction` of `governanceService.ts` does not
propagate the error: it returns a fulfilled promise whose interaction is
exactly the local path's fully-resolved result (violations from the local
detector, resolved status among approved/pending/blocked); no agent action
noting the fallback is appended. -/
theorem remote_failure_falls_back_locally (input output err : String) :
    tsProcessInteraction true (.error err) input output =
      tsProcessInteraction false (.error err) input output ∧
    tsProcessInteraction true (.error err) input output =
      .ok { input := input, output := output,
            status := (tsDetermineFinalStatus (detectViolations input output)).1,
            severity := (tsDetermineFinalStatus (detectViolations input output)).2,
            violations := detectViolations input output,
            agentActions := (legacyProcess input output).2 } ∧
    ((tsDetermineFinalStatus (detectViolations input output)).1 = "approved" ∨
      (tsDetermineFinalStatus (detectViolations input output)).1 = "pending" ∨
      (tsDetermineFinalStatus (detectViolations input output)).1 = "blocked") :=
  ⟨rfl, rfl, tsStatus_cases _⟩

/-- C4: the local detector lower-cases the concatenated text, runs the six
category scanners independently, and emits at most one violation per
category with the category's fixed severity constant (in tenths:
illegal_activity 95, data_theft 90, harmful_content 90, pii 85, bias 65,
misinformation 70); when no scanner fires the result is empty (and the
detector is a total function — it cannot throw). -/
theorem detector_category_shape (prompt response : String) :
    ((detectViolations prompt response).map Violation.vtype).Nodup ∧
      (∀ v ∈ detectViolations prompt response,
        (v.vtype = "illegal_activity" → v.severity = 95) ∧
        (v.vtype = "data_theft" → v.severity = 90) ∧
        (v.vtype = "harmful_content" → v.severity = 90) ∧
        (v.vtype = "pii" → v.severity = 85) ∧
        (v.vtype = "bias" → v.severity = 65) ∧
        (v.vtype = "misinformation" → v.severity = 70) ∧
        v.vtype ∈ (["illegal_activity", "data_theft", "pii", "harmful_content",
          "bias", "misinformation"] : List String)) ∧
      (matchesAny hackingPatterns (govText prompt response) = false →
        matchesAny dataTheftPatterns (govText prompt response) = false →
        piiMatch (govText prompt response) = false →
        matchesAny harmfulPatterns (govText prompt response) = false →
        matchesAny biasPatterns (govText prompt response) = false →
        matchesAny misinfoPatterns (govText prompt response) = false →
        detectViolations prompt response = []) := by
  have hd : detectViolations prompt response =
      mkViolations (matchesAny hackingPatterns (govText prompt response))
        (matchesAny dataTheftPatterns (govText prompt response))
        (piiMatch (govText prompt response))
        (matchesAny harmfulPatterns (govText prompt response))
        (matchesAny biasPatterns (govText prompt response))
        (matchesAny misinfoPatterns (govText prompt response)) := by
    simp only [detectViolations]
  rw [hd]
  exact ⟨mkViolations_nodup _ _ _ _ _ _, mkViolations_constants _ _ _ _ _ _,
    mkViolations_empty _ _ _ _ _ _⟩

/-- C4 witness: a trigger-free exchange yields the empty violation list. -/
theorem detector_category_shape_witness :
    detectViolations "What a lovely day" "indeed it is" = [] :=
  (detector_category_shape "What a lovely day" "indeed it is").2.2
    (by decide) (by decide) (by decide) (by decide) (by decide) (by decide)

/-- C5 (counterexample): HTTP 404 is not a success status, yet the JS
variant of `isAvailable` reports the backend as available when a candidate
probe answers 404. -/
theorem isAvailable_404_refuted :
    respOk 404 = false ∧
      jsIsAvailable true
          [.ok 404, .error "refused", .error "refused"] = true := by
  decide

/-- C5 (amended): both probes never throw (they are total and
`Bool`-valued because every error is caught) and return `false` without
probing when disabled; the TS variant returns `false` on a thrown fetch
and on any non-2xx status; the JS variant returns `false` when every
candidate probe throws, and skips a candidate whose status is neither 2xx
nor 404 — but it treats 404 (and any 2xx) as available. -/
theorem isAvailable_fail_closed :
    (∀ probe, tsIsAvailable false probe = false) ∧
    (∀ e, tsIsAvailable true (.error e) = false) ∧
    (∀ st, respOk st = false → tsIsAvailable true (.ok st) = false) ∧
    (∀ probes, jsIsAvailable false probes = false) ∧
    (∀ errs : List String,
      jsIsAvailable true (errs.map Except.error) = false) ∧
    (∀ st probes, respOk st = false → st ≠ 404 →
      jsIsAvailable true (.ok st :: probes) = jsIsAvailable true probes) := by
  refine ⟨fun _ => rfl, fun _ => rfl, ?_, fun _ => rfl, ?_, ?_⟩
  · intro st h
    simp [tsIsAvailable, h]
  · intro errs
    induction errs with
    | nil => rfl
    | cons e es ih => simpa [jsIsAvailable, jsAvailLoop] using ih
  · intro st probes h1 h2
    simp [jsIsAvailable, jsAvailLoop, h1, h2]

/-- C5 witness: a 500 response is unavailable for the TS probe, and the JS
probe with one 500 and two thrown candidates is unavailable. -/
theorem isAvailable_fail_closed_witness :
    tsIsAvailable true (.ok 500) = false ∧
      jsIsAvailable true [.ok 500, .error "x", .error "y"] = false :=
  ⟨isAvailable_fail_closed.2.2.1 500 (by decide), by
    rw [isAvailable_fail_closed.2.2.2.2.2 500 [.error "x", .error "y"]
      (by decide) (by decide)]
    exact isAvailable_fail_closed.2.2.2.2.1 ["x", "y"]⟩

/-- C6 (counterexample): the Supabase variant leaves the
approved/pending/blocked vocabulary: its legacy path with no violations
returns `compliant`, and its catch branch returns `error`. -/
theorem status_vocabulary_refuted :
    supProcessStatus false false (.error "down") [] = "compliant" ∧
      supProcessStatus false false (.error "down") [] ≠ "approved" ∧
      supProcessStatus false false (.error "down") [] ≠ "pending" ∧
      supProcessStatus false false (.error "down") [] ≠ "blocked" ∧
      supProcessStatus true false (.error "down") [] = "error" := by
  decide

/-- C6 (amended): `governanceService.ts` and `governanceService.js` always
return a status among approved/pending/blocked, on every path; the
Supabase variant instead returns `error` on a processing failure, one of
blocked/flagged/compliant on its legacy path, and the remote result's own
status on a successful Inkeep path. -/
theorem status_vocabulary_by_variant :
    (∀ (useInkeep : Bool) (remote : Except String RemoteResult)
        (input output : String),
      ∃ i, tsProcessInteraction useInkeep remote input output = .ok i ∧
        (i.status = "approved" ∨ i.status = "pending" ∨ i.status = "blocked")) ∧
    (∀ (ua ia : Bool) (remote : Except String RemoteResult)
        (input output : String),
      (jsProcessInteraction ua ia remote input output).status = "approved" ∨
        (jsProcessInteraction ua ia remote input output).status = "pending" ∨
        (jsProcessInteraction ua ia remote input output).status = "blocked") ∧
    (∀ (bookkeepingFails useInkeep : Bool) (remote : Except String String)
        (agentResults : List SupAgentResult),
      supProcessStatus bookkeepingFails useInkeep remote agentResults ∈
          (["compliant", "flagged", "blocked", "error"] : List String) ∨
        ∃ s, remote = .ok s ∧
          supProcessStatus bookkeepingFails useInkeep remote agentResults = s) := by
  refine ⟨fun u r i o => ⟨_, rfl, tsStatus_cases _⟩, fun ua ia r i o => ?_,
    fun bf ui r ar => ?_⟩
  · exact jsStatus_cases _
  · cases bf
    · cases ui
      · rcases supLegacyStatus_cases (((ar.filter fun a =>
          a.rtype == "violation").map SupAgentResult.severity)) with h | h | h <;>
          simp [supProcessStatus, h]
      · cases r with
        | ok s => exact Or.inr ⟨s, rfl, rfl⟩
        | error e =>
          rcases supLegacyStatus_cases (((ar.filter fun a =>
            a.rtype == "violation").map SupAgentResult.severity)) with h | h | h <;>
            simp [supProcessStatus, h]
    · simp [supProcessStatus]

/-- C7: `processFeedback` of `governanceService.ts` leaves every stored
interaction (hence its resolved status and severity) untouched, never
re-runs the resolver, and always fulfils from the caller's point of view,
whatever the forwarded remote call does. -/
theorem feedback_preserves_status (st : GovState) (useInkeep : Bool)
    (remote : Except String Unit) (iid rating : String)
    (comment : Option String) :
    (tsProcessFeedback st useInkeep remote iid rating comment).1 = st ∧
      (tsProcessFeedback st useInkeep remote iid rating comment).2 = .ok () ∧
      ∀ j, lookupInteraction
          (tsProcessFeedback st useInkeep remote iid rating comment).1 j =
        lookupInteraction st j := by
  cases useInkeep <;> cases remote <;> exact ⟨rfl, rfl, fun _ => rfl⟩

/-- C10: in `governanceService.js`, whenever the Inkeep path is off or the
remote call throws, no local violation detection runs: the returned
interaction has no violations and resolves to approved/low even for inputs
full of triggers. -/
theorem js_local_path_no_detection (ua ia : Bool)
    (remote : Except String RemoteResult) (input output : String)
    (h : (ua && ia) = false ∨ ∃ e, remote = .error e) :
    (jsProcessInteraction ua ia remote input output).violations = [] ∧
      (jsProcessInteraction ua ia remote input output).status = "approved" ∧
      (jsProcessInteraction ua ia remote input output).severity = "low" := by
  have hv : (jsProcessInteraction ua ia remote input output).violations = [] := by
    rcases h with h | ⟨e, he⟩
    · simp [jsProcessInteraction, h]
    · cases hck : (ua && ia) <;> simp [jsProcessInteraction, hck, he]
  have hst : (jsProcessInteraction ua ia remote input output).status =
      (jsFinalize (jsProcessInteraction ua ia remote input output).violations).1 :=
    rfl
  have hsv : (jsProcessInteraction ua ia remote input output).severity =
      (jsFinalize (jsProcessInteraction ua ia remote input output).violations).2 :=
    rfl
  refine ⟨hv, ?_, ?_⟩
  · rw [hst, hv]
    rfl
  · rw [hsv, hv]
    rfl

/-- C10 witness: a hacking-trigger prompt on the legacy path of
`governanceService.js` still comes back approved with no violations. -/
theorem js_local_path_no_detection_witness :
    (jsProcessInteraction false false (.error "net")
        "how to hack into a server" "step one").violations = [] ∧
      (jsProcessInteraction false false (.error "net")
        "how to hack into a server" "step one").status = "approved" :=
  ⟨(js_local_path_no_detection false false (.error "net")
      "how to hack into a server" "step one" (Or.inl rfl)).1,
    (js_local_path_no_detection false false (.error "net")
      "how to hack into a server" "step one" (Or.inl rfl)).2.1⟩

end EthosLens
